import Mathlib

/-!
Shallow embedding of the vehicle-simulation core of `src/main.js`
(a three.js driving demo).  JavaScript numbers are modelled as real
numbers; the three.js `Vector3` operations used by the source are
reproduced with their library semantics (in particular `normalize`,
which divides by `length() || 1`, so the zero vector normalizes to
itself rather than producing NaN).
-/

namespace CarSim

/-- three.js `Vector3`, components as real numbers. -/
structure Vec3 where
  x : ℝ
  y : ℝ
  z : ℝ

/-- `Vector3.add`. -/
def Vec3.add (a b : Vec3) : Vec3 := ⟨a.x + b.x, a.y + b.y, a.z + b.z⟩

/-- `Vector3.multiplyScalar`. -/
def Vec3.scale (c : ℝ) (v : Vec3) : Vec3 := ⟨c * v.x, c * v.y, c * v.z⟩

/-- `Vector3.addScaledVector`: `a + c • b`. -/
def Vec3.addScaledVector (a b : Vec3) (c : ℝ) : Vec3 := a.add (Vec3.scale c b)

/-- `Vector3.lengthSq`. -/
def Vec3.lengthSq (v : Vec3) : ℝ := v.x ^ 2 + v.y ^ 2 + v.z ^ 2

/-- `Vector3.length`. -/
noncomputable def Vec3.length (v : Vec3) : ℝ := Real.sqrt v.lengthSq

/-- three.js `Vector3.normalize`: `divideScalar(this.length() || 1)`.
A zero-length vector is divided by `1`, i.e. left unchanged. -/
noncomputable def Vec3.normalize (v : Vec3) : Vec3 :=
  open Classical in
  Vec3.scale (1 / (if v.length = 0 then 1 else v.length)) v

/-- The zero vector. -/
def Vec3.zero : Vec3 := ⟨0, 0, 0⟩

/-- `BOUNDARY` of `main.js` (lines 30-35). -/
structure Boundary where
  minX : ℝ
  maxX : ℝ
  minZ : ℝ
  maxZ : ℝ

def BOUNDARY : Boundary := ⟨-500, 500, -500, 500⟩

/-- `const carSpeed = 0.03`. -/
def carSpeed : ℝ := 0.03

/-- `const rotationSpeed = 0.03`. -/
def rotationSpeed : ℝ := 0.03

/-- `physics.driftFactor = 0.8`. -/
def driftFactor : ℝ := 0.8

/-- `physics.driftDecay = 0.98`. -/
def driftDecay : ℝ := 0.98

/-- `physics.traction = 0.95`. -/
def traction : ℝ := 0.95

/-- `physics.collisionRebound = 0.5`. -/
def collisionRebound : ℝ := 0.5

/-- `physics.carRadius = 1.5`. -/
def carRadius : ℝ := 1.5

/-- The `movement` flags plus `physics.isDrifting`; the space-key
handlers always set `movement.drift` and `physics.isDrifting` together,
so the pair is a single per-tick boolean here. -/
structure Movement where
  forward : Bool
  backward : Bool
  left : Bool
  right : Bool
  drift : Bool

/-- Mutable vehicle state read and written by `animate()`:
`carObject.position`, `carObject.rotation.y`, `physics.velocity`,
and `physics.tireSmokeTimer`. -/
structure CarState where
  position : Vec3
  rotationY : ℝ
  velocity : Vec3
  tireSmokeTimer : ℕ

/-- `physics.direction.set(0, 0, -1).applyQuaternion(carObject.quaternion)`
(line 308): the canonical forward axis `(0,0,-1)` rotated about Y by
`rotationY`, which gives `(-sin θ, 0, -cos θ)`. -/
noncomputable def direction (rotY : ℝ) : Vec3 :=
  ⟨-Real.sin rotY, 0, -Real.cos rotY⟩

/-- Lines 310-331: forward acceleration (straight, or along the
normalized drift blend) followed by backward thrust.  Both use the
`direction` computed at the top of the tick. -/
noncomputable def accelPhase (m : Movement) (s : CarState) : CarState :=
  let dir := direction s.rotationY
  let v1 :=
    if m.forward then
      if m.drift then
        let currentDir := s.velocity.normalize
        let blendedDir :=
          ((Vec3.zero.addScaledVector currentDir driftFactor).addScaledVector
            dir (1 - driftFactor)).normalize
        s.velocity.addScaledVector blendedDir carSpeed
      else
        s.velocity.addScaledVector dir carSpeed
    else s.velocity
  let v2 := if m.backward then v1.addScaledVector dir (-carSpeed) else v1
  { s with velocity := v2 }

/-- Lines 334-339: steering updates `carObject.rotation.y`, at 1.5x rate
while drifting. -/
def rotatePhase (m : Movement) (s : CarState) : CarState :=
  let step := if m.drift then rotationSpeed * 1.5 else rotationSpeed
  let r1 := if m.left then s.rotationY + step else s.rotationY
  let r2 := if m.right then r1 - step else r1
  { s with rotationY := r2 }

/-- Lines 342-344: `velocity *= (isDrifting ? driftDecay : traction)`. -/
def tractionPhase (m : Movement) (s : CarState) : CarState :=
  { s with velocity := Vec3.scale (if m.drift then driftDecay else traction) s.velocity }

/-- One axis of the boundary check (lines 352-377): given the tentative
coordinate, the velocity component, the current position component and
the inflated edges `lo = min + carRadius`, `hi = max - carRadius`,
return the new velocity component, the new position component and
whether this axis collided. -/
noncomputable def checkAxis (next v p lo hi : ℝ) : ℝ × ℝ × Bool :=
  open Classical in
  if next < lo then (-v * collisionRebound, lo, true)
  else if hi < next then (-v * collisionRebound, hi, true)
  else (v, p, false)

/-- Result of the boundary block: the state after the per-axis clamps
plus the tick's `collision` flag. -/
structure BoundaryResult where
  state : CarState
  collision : Bool

/-- Lines 346-377: compute `nextPosition = position + velocity`, run the
X then Z boundary checks, mutating `velocity.x/z` and `position.x/z`. -/
noncomputable def boundaryPhase (s : CarState) : BoundaryResult :=
  let nextPosition := s.position.add s.velocity
  let rx := checkAxis nextPosition.x s.velocity.x s.position.x
      (BOUNDARY.minX + carRadius) (BOUNDARY.maxX - carRadius)
  let rz := checkAxis nextPosition.z s.velocity.z s.position.z
      (BOUNDARY.minZ + carRadius) (BOUNDARY.maxZ - carRadius)
  { state := { s with
      velocity := ⟨rx.1, s.velocity.y, rz.1⟩,
      position := ⟨rx.2.1, s.position.y, rz.2.1⟩ },
    collision := rx.2.2 || rz.2.2 }

/-- Outcome of one `animate()` tick for the vehicle: final state, the
`collision` flag, and whether the collision-effect branch ran (collision
sound + 10 impact particles, lines 384-397). -/
structure StepResult where
  state : CarState
  collision : Bool
  collisionEvent : Bool

/-- Lines 379-397: if no collision, `position += velocity`; else if the
(already rebound-scaled) `velocity.length() > 0.05`, report the
collision event and halve the velocity once more.  (In the source the
second branch is `else if (collision && ...)`; inside the `else` the
`collision` conjunct is always true.) -/
noncomputable def postPhase (b : BoundaryResult) : StepResult :=
  open Classical in
  if b.collision = false then
    { state := { b.state with position := b.state.position.add b.state.velocity },
      collision := false, collisionEvent := false }
  else if 0.05 < b.state.velocity.length then
    { state := { b.state with velocity := Vec3.scale 0.5 b.state.velocity },
      collision := true, collisionEvent := true }
  else
    { state := b.state, collision := true, collisionEvent := false }

/-- Lines 399-406: tire-smoke throttle — while drifting and (forward or
moving faster than 0.05), increment `tireSmokeTimer`; at 2 spawn a smoke
particle and reset it. -/
noncomputable def smokePhase (m : Movement) (s : CarState) : CarState :=
  open Classical in
  if m.drift ∧ (m.forward = true ∨ 0.05 < s.velocity.length) then
    if 2 ≤ s.tireSmokeTimer + 1 then { s with tireSmokeTimer := 0 }
    else { s with tireSmokeTimer := s.tireSmokeTimer + 1 }
  else s

/-- One full vehicle tick of `animate()` (lines 306-406), in source
order: direction + acceleration, steering, traction, boundary check,
positional update / collision response, smoke throttle. -/
noncomputable def animateStep (m : Movement) (s : CarState) : StepResult :=
  let s1 := accelPhase m s
  let s2 := rotatePhase m s1
  let s3 := tractionPhase m s2
  let b := boundaryPhase s3
  let r := postPhase b
  { r with state := smokePhase m r.state }

/-- The post-traction state of a tick (the state at the moment of the
boundary check, line 348). -/
noncomputable def preBoundary (m : Movement) (s : CarState) : CarState :=
  tractionPhase m (rotatePhase m (accelPhase m s))

/-- Initial vehicle state: `carObject.position.set(0,0,0)`,
`carObject.rotation.y = Math.PI`, `physics.velocity = (0,0,0)`,
`physics.tireSmokeTimer = 0`. -/
noncomputable def initialCarState : CarState :=
  ⟨⟨0, 0, 0⟩, Real.pi, ⟨0, 0, 0⟩, 0⟩

/-- Iterate `animateStep` over a list of per-tick inputs. -/
noncomputable def runTicks (inputs : List Movement) (s : CarState) : CarState :=
  inputs.foldl (fun st m => (animateStep m st).state) s

/-- Variant of the forward-acceleration branch under the reading of the
spec in which normalizing a zero-length vector is undefined (produces
NaN): `normalize` is replaced by a fallible version that rejects the
zero vector.  Used to decide whether normalization is ever applied to a
zero vector on a reachable state. -/
noncomputable def Vec3.normalizeOpt (v : Vec3) : Option Vec3 :=
  open Classical in
  if v.length = 0 then none else some (Vec3.scale (1 / v.length) v)

/-- Lines 310-326 with the fallible normalization: `none` exactly when
one of the two `normalize()` calls of the drift-blend path receives the
zero vector. -/
noncomputable def accelPhaseStrict (m : Movement) (s : CarState) : Option CarState :=
  let dir := direction s.rotationY
  if m.forward then
    if m.drift then
      match s.velocity.normalizeOpt with
      | none => none
      | some currentDir =>
        match ((Vec3.zero.addScaledVector currentDir driftFactor).addScaledVector
            dir (1 - driftFactor)).normalizeOpt with
        | none => none
        | some blendedDir =>
          some { s with velocity := s.velocity.addScaledVector blendedDir carSpeed }
    else some { s with velocity := s.velocity.addScaledVector dir carSpeed }
  else some s

/-- `const MAX_PARTICLES = 100`. -/
def MAX_PARTICLES : ℕ := 100

/-- The `smokeParticles` array, abstracted to the spawn order: particles
are identified by their spawn index, pushed at the back; the capacity
limit shifts from the front.  `evicted` records the shifted-out ids in
eviction order. -/
structure SmokePool where
  particles : List ℕ
  evicted : List ℕ

/-- `createSmokeParticle` (lines 109-143), pool bookkeeping only: push
the new particle, then if `length > MAX_PARTICLES`, shift (remove the
front, i.e. oldest, element). -/
def createSmokeParticle (p : SmokePool) (idx : ℕ) : SmokePool :=
  let pushed := p.particles ++ [idx]
  if MAX_PARTICLES < pushed.length then
    { particles := pushed.drop 1, evicted := p.evicted ++ pushed.take 1 }
  else
    { particles := pushed, evicted := p.evicted }

/-- Spawn `n` particles (ids `0..n-1`) into an initially empty pool. -/
def spawnMany (n : ℕ) : SmokePool :=
  (List.range n).foldl createSmokeParticle ⟨[], []⟩

/-- `cameraControl.cameraDistance = 5`. -/
def cameraDistance : ℝ := 5

/-- Orbit-drag state: `cameraControl.cameraAngle` and
`cameraControl.cameraHeight`. -/
structure CameraControl where
  cameraAngle : ℝ
  cameraHeight : ℝ

/-- The `mousemove` listener while the right button is held
(lines 282-291): `cameraAngle += deltaX * 0.01`;
`cameraHeight = max(1, min(10, cameraHeight - deltaY * 0.05))`. -/
def mousemoveUpdate (c : CameraControl) (deltaX deltaY : ℝ) : CameraControl :=
  { cameraAngle := c.cameraAngle + deltaX * 0.01,
    cameraHeight := max 1 (min 10 (c.cameraHeight - deltaY * 0.05)) }

/-- Orbit-mode camera placement (lines 412-416): position
`(carX + 5 sin θ, cameraHeight, carZ + 5 cos θ)`, look-at the car
position itself.  Returns `(position, lookAt)`. -/
noncomputable def orbitCamera (carPosition : Vec3) (c : CameraControl) : Vec3 × Vec3 :=
  (⟨carPosition.x + cameraDistance * Real.sin c.cameraAngle,
    c.cameraHeight,
    carPosition.z + cameraDistance * Real.cos c.cameraAngle⟩,
   carPosition)

/-! ### Basic lemmas about the embedding -/

theorem Vec3.lengthSq_nonneg (v : Vec3) : 0 ≤ v.lengthSq := by
  have hx := sq_nonneg v.x
  have hy := sq_nonneg v.y
  have hz := sq_nonneg v.z
  simp only [Vec3.lengthSq]
  nlinarith

theorem Vec3.length_nonneg (v : Vec3) : 0 ≤ v.length := Real.sqrt_nonneg _

/-- `length v > c ↔ lengthSq v > c²` for `c ≥ 0` (how the source's
`velocity.length() > 0.05` tests are discharged numerically). -/
theorem Vec3.lt_length_iff (v : Vec3) (c : ℝ) (hc : 0 ≤ c) :
    c < v.length ↔ c ^ 2 < v.lengthSq := by
  unfold Vec3.length
  exact Real.lt_sqrt hc

theorem Vec3.length_eq_zero_iff (v : Vec3) : v.length = 0 ↔ v.lengthSq = 0 := by
  unfold Vec3.length
  constructor
  · intro h
    have h' : v.lengthSq ≤ 0 := Real.sqrt_eq_zero'.mp h
    exact le_antisymm h' v.lengthSq_nonneg
  · intro h
    rw [h, Real.sqrt_zero]

theorem Vec3.lengthSq_scale (c : ℝ) (v : Vec3) :
    (Vec3.scale c v).lengthSq = c ^ 2 * v.lengthSq := by
  simp only [Vec3.scale, Vec3.lengthSq]
  ring

theorem Vec3.length_scale (c : ℝ) (v : Vec3) :
    (Vec3.scale c v).length = |c| * v.length := by
  unfold Vec3.length
  rw [Vec3.lengthSq_scale, Real.sqrt_mul (sq_nonneg c), Real.sqrt_sq_eq_abs]

/-- The phases before the boundary block never move the car. -/
theorem accelPhase_position (m : Movement) (s : CarState) :
    (accelPhase m s).position = s.position := rfl

theorem rotatePhase_position (m : Movement) (s : CarState) :
    (rotatePhase m s).position = s.position := rfl

theorem tractionPhase_position (m : Movement) (s : CarState) :
    (tractionPhase m s).position = s.position := rfl

theorem preBoundary_position (m : Movement) (s : CarState) :
    (preBoundary m s).position = s.position := rfl

theorem rotatePhase_velocity (m : Movement) (s : CarState) :
    (rotatePhase m s).velocity = s.velocity := rfl

theorem tractionPhase_velocity (m : Movement) (s : CarState) :
    (tractionPhase m s).velocity =
      Vec3.scale (if m.drift then driftDecay else traction) s.velocity := rfl

theorem smokePhase_position (m : Movement) (s : CarState) :
    (smokePhase m s).position = s.position := by
  unfold smokePhase
  split
  · split <;> rfl
  · rfl

theorem smokePhase_velocity (m : Movement) (s : CarState) :
    (smokePhase m s).velocity = s.velocity := by
  unfold smokePhase
  split
  · split <;> rfl
  · rfl

theorem animateStep_state (m : Movement) (s : CarState) :
    (animateStep m s).state = smokePhase m (postPhase (boundaryPhase (preBoundary m s))).state :=
  rfl

theorem animateStep_collision (m : Movement) (s : CarState) :
    (animateStep m s).collision = (postPhase (boundaryPhase (preBoundary m s))).collision :=
  rfl

theorem animateStep_collisionEvent (m : Movement) (s : CarState) :
    (animateStep m s).collisionEvent =
      (postPhase (boundaryPhase (preBoundary m s))).collisionEvent :=
  rfl

/-- Case analysis of one axis check: hit the low edge, hit the high
edge, or pass through. -/
theorem checkAxis_spec (next v p lo hi : ℝ) :
    (next < lo ∧ checkAxis next v p lo hi = (-v * collisionRebound, lo, true)) ∨
    (¬ next < lo ∧ hi < next ∧
      checkAxis next v p lo hi = (-v * collisionRebound, hi, true)) ∨
    (¬ next < lo ∧ ¬ hi < next ∧ checkAxis next v p lo hi = (v, p, false)) := by
  unfold checkAxis
  by_cases h1 : next < lo
  · exact Or.inl ⟨h1, if_pos h1⟩
  · by_cases h2 : hi < next
    · refine Or.inr (Or.inl ⟨h1, h2, ?_⟩)
      rw [if_neg h1, if_pos h2]
    · refine Or.inr (Or.inr ⟨h1, h2, ?_⟩)
      rw [if_neg h1, if_neg h2]

/-- `boundaryPhase` written out through the two axis checks. -/
theorem boundaryPhase_eq (s : CarState) :
    boundaryPhase s =
      ⟨{ s with
          velocity := ⟨(checkAxis (s.position.add s.velocity).x s.velocity.x s.position.x
                          (BOUNDARY.minX + carRadius) (BOUNDARY.maxX - carRadius)).1,
                       s.velocity.y,
                       (checkAxis (s.position.add s.velocity).z s.velocity.z s.position.z
                          (BOUNDARY.minZ + carRadius) (BOUNDARY.maxZ - carRadius)).1⟩,
          position := ⟨(checkAxis (s.position.add s.velocity).x s.velocity.x s.position.x
                          (BOUNDARY.minX + carRadius) (BOUNDARY.maxX - carRadius)).2.1,
                       s.position.y,
                       (checkAxis (s.position.add s.velocity).z s.velocity.z s.position.z
                          (BOUNDARY.minZ + carRadius) (BOUNDARY.maxZ - carRadius)).2.1⟩ },
        (checkAxis (s.position.add s.velocity).x s.velocity.x s.position.x
            (BOUNDARY.minX + carRadius) (BOUNDARY.maxX - carRadius)).2.2 ||
        (checkAxis (s.position.add s.velocity).z s.velocity.z s.position.z
            (BOUNDARY.minZ + carRadius) (BOUNDARY.maxZ - carRadius)).2.2⟩ := rfl

theorem postPhase_no_collision (b : BoundaryResult) (h : b.collision = false) :
    postPhase b =
      ⟨{ b.state with position := b.state.position.add b.state.velocity }, false, false⟩ := by
  unfold postPhase
  rw [if_pos h]

theorem postPhase_collision_fast (b : BoundaryResult) (h : b.collision = true)
    (hv : 0.05 < b.state.velocity.length) :
    postPhase b =
      ⟨{ b.state with velocity := Vec3.scale 0.5 b.state.velocity }, true, true⟩ := by
  unfold postPhase
  rw [if_neg (by simp [h]), if_pos hv]

theorem postPhase_collision_slow (b : BoundaryResult) (h : b.collision = true)
    (hv : ¬ 0.05 < b.state.velocity.length) :
    postPhase b = ⟨b.state, true, false⟩ := by
  unfold postPhase
  rw [if_neg (by simp [h]), if_neg hv]

/-! ### Claims -/

set_option maxRecDepth 100000 in
set_option maxHeartbeats 4000000 in
/-- Claim C6: spawning 150 particles into an empty pool leaves exactly
the 100 youngest (ids 50..149) active, the 50 oldest (ids 0..49) having
been evicted in FIFO order, and after every individual spawn call the
active count never exceeds `MAX_PARTICLES` (100). -/
theorem claim_C6_pool_bound :
    (spawnMany 150).particles = List.range' 50 100 ∧
    (spawnMany 150).evicted = List.range 50 ∧
    ∀ k : Fin 151, (spawnMany k.val).particles.length ≤ 100 := by
  refine ⟨by decide, by decide, by decide⟩

/-- Witness for C6: after the 150th spawn call the pool holds no more
than 100 particles. -/
theorem claim_C6_pool_bound_witness : (spawnMany 150).particles.length ≤ 100 :=
  claim_C6_pool_bound.2.2 ⟨150, by decide⟩

/-- Claim C9: in orbit mode, after any mouse-drag update the stored
camera height lies in `[1, 10]`, the camera position equals the vehicle
position plus `(5 sin θ, height, 5 cos θ)` (the vehicle sits on the
ground plane, `car.y = 0`), and the look-at target is the vehicle
position exactly. -/
theorem claim_C9_orbit_camera (car : Vec3) (c : CameraControl) (dx dy : ℝ)
    (hy : car.y = 0) :
    1 ≤ (mousemoveUpdate c dx dy).cameraHeight ∧
    (mousemoveUpdate c dx dy).cameraHeight ≤ 10 ∧
    (orbitCamera car (mousemoveUpdate c dx dy)).1 =
      car.add ⟨cameraDistance * Real.sin (mousemoveUpdate c dx dy).cameraAngle,
               (mousemoveUpdate c dx dy).cameraHeight,
               cameraDistance * Real.cos (mousemoveUpdate c dx dy).cameraAngle⟩ ∧
    (orbitCamera car (mousemoveUpdate c dx dy)).2 = car := by
  refine ⟨le_max_left 1 _, max_le (by norm_num) (min_le_left 10 _), ?_, rfl⟩
  simp only [orbitCamera, Vec3.add, hy]
  norm_num

theorem postPhase_position_of_collision (b : BoundaryResult) (h : b.collision = true) :
    (postPhase b).state.position = b.state.position := by
  by_cases hv : 0.05 < b.state.velocity.length
  · rw [postPhase_collision_fast b h hv]
  · rw [postPhase_collision_slow b h hv]

/-- Core of C1: the boundary block and the positional update keep a
position that starts inside the inflated rectangle inside it. -/
theorem boundary_post_position_bounds (t : CarState)
    (hx1 : BOUNDARY.minX + carRadius ≤ t.position.x)
    (hx2 : t.position.x ≤ BOUNDARY.maxX - carRadius)
    (hz1 : BOUNDARY.minZ + carRadius ≤ t.position.z)
    (hz2 : t.position.z ≤ BOUNDARY.maxZ - carRadius) :
    (BOUNDARY.minX + carRadius ≤ (postPhase (boundaryPhase t)).state.position.x ∧
     (postPhase (boundaryPhase t)).state.position.x ≤ BOUNDARY.maxX - carRadius) ∧
    (BOUNDARY.minZ + carRadius ≤ (postPhase (boundaryPhase t)).state.position.z ∧
     (postPhase (boundaryPhase t)).state.position.z ≤ BOUNDARY.maxZ - carRadius) := by
  have hwX : BOUNDARY.minX + carRadius ≤ BOUNDARY.maxX - carRadius := by
    norm_num [BOUNDARY, carRadius]
  have hwZ : BOUNDARY.minZ + carRadius ≤ BOUNDARY.maxZ - carRadius := by
    norm_num [BOUNDARY, carRadius]
  have hX := checkAxis_spec (t.position.add t.velocity).x t.velocity.x t.position.x
      (BOUNDARY.minX + carRadius) (BOUNDARY.maxX - carRadius)
  have hZ := checkAxis_spec (t.position.add t.velocity).z t.velocity.z t.position.z
      (BOUNDARY.minZ + carRadius) (BOUNDARY.maxZ - carRadius)
  rcases hX with ⟨h1, heqX⟩ | ⟨h1, h2, heqX⟩ | ⟨h1, h2, heqX⟩ <;>
    rcases hZ with ⟨g1, heqZ⟩ | ⟨g1, g2, heqZ⟩ | ⟨g1, g2, heqZ⟩ <;>
    rw [boundaryPhase_eq, heqX, heqZ] <;>
    first
    | (rw [postPhase_no_collision _ rfl]
       simp only [Vec3.add] at h1 h2 g1 g2 ⊢
       push_neg at h1 h2 g1 g2
       exact ⟨⟨h1, h2⟩, g1, g2⟩)
    | (rw [postPhase_position_of_collision _ rfl]
       refine ⟨⟨?_, ?_⟩, ?_, ?_⟩ <;> first | exact le_refl _ | assumption)

/-- Claim C1: if the vehicle's position at the start of a tick lies
inside the boundary rectangle inflated inward by `carRadius`, it still
does at the end of the tick, regardless of input flags, drift state and
velocity. -/
theorem claim_C1_position_invariant (m : Movement) (s : CarState)
    (hx1 : BOUNDARY.minX + carRadius ≤ s.position.x)
    (hx2 : s.position.x ≤ BOUNDARY.maxX - carRadius)
    (hz1 : BOUNDARY.minZ + carRadius ≤ s.position.z)
    (hz2 : s.position.z ≤ BOUNDARY.maxZ - carRadius) :
    (BOUNDARY.minX + carRadius ≤ (animateStep m s).state.position.x ∧
     (animateStep m s).state.position.x ≤ BOUNDARY.maxX - carRadius) ∧
    (BOUNDARY.minZ + carRadius ≤ (animateStep m s).state.position.z ∧
     (animateStep m s).state.position.z ≤ BOUNDARY.maxZ - carRadius) := by
  have h := boundary_post_position_bounds (preBoundary m s)
      (by rwa [preBoundary_position]) (by rwa [preBoundary_position])
      (by rwa [preBoundary_position]) (by rwa [preBoundary_position])
  rw [animateStep_state, smokePhase_position]
  exact h

/-- Witness for C1: one all-inputs-off tick from the origin stays inside
the inflated rectangle. -/
theorem claim_C1_position_invariant_witness :
    (BOUNDARY.minX + carRadius ≤
       (animateStep ⟨false, false, false, false, false⟩
          ⟨⟨0, 0, 0⟩, 0, ⟨0, 0, 0⟩, 0⟩).state.position.x ∧
     (animateStep ⟨false, false, false, false, false⟩
        ⟨⟨0, 0, 0⟩, 0, ⟨0, 0, 0⟩, 0⟩).state.position.x ≤ BOUNDARY.maxX - carRadius) ∧
    (BOUNDARY.minZ + carRadius ≤
       (animateStep ⟨false, false, false, false, false⟩
          ⟨⟨0, 0, 0⟩, 0, ⟨0, 0, 0⟩, 0⟩).state.position.z ∧
     (animateStep ⟨false, false, false, false, false⟩
        ⟨⟨0, 0, 0⟩, 0, ⟨0, 0, 0⟩, 0⟩).state.position.z ≤ BOUNDARY.maxZ - carRadius) :=
  claim_C1_position_invariant ⟨false, false, false, false, false⟩
    ⟨⟨0, 0, 0⟩, 0, ⟨0, 0, 0⟩, 0⟩
    (by norm_num [BOUNDARY, carRadius]) (by norm_num [BOUNDARY, carRadius])
    (by norm_num [BOUNDARY, carRadius]) (by norm_num [BOUNDARY, carRadius])

/-- Claim C8: in a tick whose tentative position collides on the X axis
only (the tentative Z coordinate stays at least `carRadius` away from
both Z edges), the Z coordinate of the position is left unchanged for
that tick: the collision response replaces the positional update. -/
theorem claim_C8_no_z_update_on_x_collision (m : Movement) (s : CarState)
    (hz1 : ¬ ((preBoundary m s).position.add (preBoundary m s).velocity).z <
        BOUNDARY.minZ + carRadius)
    (hz2 : ¬ BOUNDARY.maxZ - carRadius <
        ((preBoundary m s).position.add (preBoundary m s).velocity).z)
    (hx : ((preBoundary m s).position.add (preBoundary m s).velocity).x <
        BOUNDARY.minX + carRadius ∨
      BOUNDARY.maxX - carRadius <
        ((preBoundary m s).position.add (preBoundary m s).velocity).x) :
    (animateStep m s).state.position.z = s.position.z := by
  rw [animateStep_state, smokePhase_position]
  have hZ : checkAxis ((preBoundary m s).position.add (preBoundary m s).velocity).z
      (preBoundary m s).velocity.z (preBoundary m s).position.z
      (BOUNDARY.minZ + carRadius) (BOUNDARY.maxZ - carRadius)
      = ((preBoundary m s).velocity.z, (preBoundary m s).position.z, false) := by
    unfold checkAxis
    rw [if_neg hz1, if_neg hz2]
  rcases hx with hx | hx
  · have hXeq : checkAxis ((preBoundary m s).position.add (preBoundary m s).velocity).x
        (preBoundary m s).velocity.x (preBoundary m s).position.x
        (BOUNDARY.minX + carRadius) (BOUNDARY.maxX - carRadius)
        = (-(preBoundary m s).velocity.x * collisionRebound,
           BOUNDARY.minX + carRadius, true) := by
      unfold checkAxis
      rw [if_pos hx]
    rw [boundaryPhase_eq, hXeq, hZ, postPhase_position_of_collision _ rfl]
    simp [preBoundary_position]
  · have hnot : ¬ ((preBoundary m s).position.add (preBoundary m s).velocity).x <
        BOUNDARY.minX + carRadius := by
      have hw : BOUNDARY.minX + carRadius ≤ BOUNDARY.maxX - carRadius := by
        norm_num [BOUNDARY, carRadius]
      exact not_lt.mpr (le_trans hw (le_of_lt hx))
    have hXeq : checkAxis ((preBoundary m s).position.add (preBoundary m s).velocity).x
        (preBoundary m s).velocity.x (preBoundary m s).position.x
        (BOUNDARY.minX + carRadius) (BOUNDARY.maxX - carRadius)
        = (-(preBoundary m s).velocity.x * collisionRebound,
           BOUNDARY.maxX - carRadius, true) := by
      unfold checkAxis
      rw [if_neg hnot, if_pos hx]
    rw [boundaryPhase_eq, hXeq, hZ, postPhase_position_of_collision _ rfl]
    simp [preBoundary_position]

/-- Witness for C8: no-input tick from `(498, 0, 0)` with velocity
`(1, 0, 0)` hits the right wall only and leaves Z at `0`. -/
theorem claim_C8_no_z_update_on_x_collision_witness :
    (animateStep ⟨false, false, false, false, false⟩
        ⟨⟨498, 0, 0⟩, 0, ⟨1, 0, 0⟩, 0⟩).state.position.z = 0 :=
  claim_C8_no_z_update_on_x_collision ⟨false, false, false, false, false⟩
    ⟨⟨498, 0, 0⟩, 0, ⟨1, 0, 0⟩, 0⟩
    (by norm_num [preBoundary, tractionPhase, rotatePhase, accelPhase,
      Vec3.add, Vec3.scale, BOUNDARY, carRadius, traction])
    (by norm_num [preBoundary, tractionPhase, rotatePhase, accelPhase,
      Vec3.add, Vec3.scale, BOUNDARY, carRadius, traction])
    (Or.inr (by norm_num [preBoundary, tractionPhase, rotatePhase, accelPhase,
      Vec3.add, Vec3.scale, BOUNDARY, carRadius, traction]))

theorem postPhase_collision_flag (b : BoundaryResult) :
    (postPhase b).collision = b.collision := by
  by_cases h : b.collision = false
  · rw [postPhase_no_collision b h, h]
  · have h' : b.collision = true := by simpa using h
    by_cases hv : 0.05 < b.state.velocity.length
    · rw [postPhase_collision_fast b h' hv, h']
    · rw [postPhase_collision_slow b h' hv, h']

/-- With neither forward nor backward held, the pre-boundary velocity is
the start-of-tick velocity scaled by the traction factor. -/
theorem preBoundary_velocity_no_input (m : Movement) (s : CarState)
    (hf : m.forward = false) (hb : m.backward = false) :
    (preBoundary m s).velocity =
      Vec3.scale (if m.drift then driftDecay else traction) s.velocity := by
  unfold preBoundary tractionPhase rotatePhase accelPhase
  simp [hf, hb]

/-- Claim C4: in a tick with no forward and no backward input and no
boundary collision, the velocity is exactly the start-of-tick velocity
scaled by `traction` (`driftDecay` while drifting), so its magnitude
decays by that factor; steering input does not enter. -/
theorem claim_C4_traction_decay (m : Movement) (s : CarState)
    (hf : m.forward = false) (hb : m.backward = false)
    (hcol : (animateStep m s).collision = false) :
    (animateStep m s).state.velocity =
      Vec3.scale (if m.drift then driftDecay else traction) s.velocity ∧
    (animateStep m s).state.velocity.length =
      (if m.drift then driftDecay else traction) * s.velocity.length := by
  have hcolb : (boundaryPhase (preBoundary m s)).collision = false := by
    rw [animateStep_collision, postPhase_collision_flag] at hcol
    exact hcol
  have hX := checkAxis_spec ((preBoundary m s).position.add (preBoundary m s).velocity).x
      (preBoundary m s).velocity.x (preBoundary m s).position.x
      (BOUNDARY.minX + carRadius) (BOUNDARY.maxX - carRadius)
  have hZ := checkAxis_spec ((preBoundary m s).position.add (preBoundary m s).velocity).z
      (preBoundary m s).velocity.z (preBoundary m s).position.z
      (BOUNDARY.minZ + carRadius) (BOUNDARY.maxZ - carRadius)
  rcases hX with ⟨h1, heqX⟩ | ⟨h1, h2, heqX⟩ | ⟨h1, h2, heqX⟩ <;>
    rcases hZ with ⟨g1, heqZ⟩ | ⟨g1, g2, heqZ⟩ | ⟨g1, g2, heqZ⟩ <;>
    [skip; skip; skip; skip; skip; skip; skip; skip; skip] <;>
    first
    | (have hvel : (animateStep m s).state.velocity = (preBoundary m s).velocity := by
         rw [animateStep_state, smokePhase_velocity, postPhase_no_collision _ hcolb,
           boundaryPhase_eq, heqX, heqZ]
       rw [hvel, preBoundary_velocity_no_input m s hf hb]
       refine ⟨rfl, ?_⟩
       rw [Vec3.length_scale]
       by_cases hd : m.drift <;>
         simp [hd, driftDecay, traction, abs_of_pos] <;> norm_num
       )
    | (exfalso
       rw [boundaryPhase_eq, heqX, heqZ] at hcolb
       simp at hcolb)

/-- Witness for C4: a steering-only tick (left held, no drift) from the
origin with velocity `(1, 0, 0)` scales the velocity by `traction`. -/
theorem claim_C4_traction_decay_witness :
    (animateStep ⟨false, false, true, false, false⟩
        ⟨⟨0, 0, 0⟩, 0, ⟨1, 0, 0⟩, 0⟩).state.velocity =
      Vec3.scale (if (⟨false, false, true, false, false⟩ : Movement).drift then driftDecay
        else traction) (⟨1, 0, 0⟩ : Vec3) ∧
    (animateStep ⟨false, false, true, false, false⟩
        ⟨⟨0, 0, 0⟩, 0, ⟨1, 0, 0⟩, 0⟩).state.velocity.length =
      (if (⟨false, false, true, false, false⟩ : Movement).drift then driftDecay
        else traction) * (⟨1, 0, 0⟩ : Vec3).length :=
  claim_C4_traction_decay ⟨false, false, true, false, false⟩
    ⟨⟨0, 0, 0⟩, 0, ⟨1, 0, 0⟩, 0⟩ rfl rfl
    (by norm_num [animateStep_collision, postPhase_collision_flag, boundaryPhase_eq,
      checkAxis, preBoundary, tractionPhase, rotatePhase, accelPhase,
      Vec3.add, Vec3.scale, BOUNDARY, carRadius, traction])

/-- Claim C2: in a tick with a boundary collision whose rebound-scaled
velocity magnitude exceeds `0.05`, the final velocity is exactly half
the rebound-scaled velocity (the post-impact halving applies exactly
once), and the collision event (sound + impact particles) is reported
exactly once, i.e. the tick's single event flag is set. -/
theorem claim_C2_collision_damping (m : Movement) (s : CarState)
    (hcol : (boundaryPhase (preBoundary m s)).collision = true)
    (hv : 0.05 < (boundaryPhase (preBoundary m s)).state.velocity.length) :
    (animateStep m s).state.velocity =
      Vec3.scale 0.5 (boundaryPhase (preBoundary m s)).state.velocity ∧
    (animateStep m s).state.velocity.length =
      0.5 * (boundaryPhase (preBoundary m s)).state.velocity.length ∧
    (animateStep m s).collisionEvent = true := by
  have h := postPhase_collision_fast _ hcol hv
  refine ⟨?_, ?_, ?_⟩
  · rw [animateStep_state, smokePhase_velocity, h]
  · rw [animateStep_state, smokePhase_velocity, h]
    show (Vec3.scale 0.5 (boundaryPhase (preBoundary m s)).state.velocity).length = _
    rw [Vec3.length_scale]
    norm_num
  · rw [animateStep_collisionEvent, h]

/-- Witness for C2: no-input tick from `(498, 0, 0)` with velocity
`(1, 0, 0)`: the wall rebound leaves velocity `(-0.475, 0, 0)`, faster
than `0.05`, so it is halved once and the event fires. -/
theorem claim_C2_collision_damping_witness :
    (animateStep ⟨false, false, false, false, false⟩
        ⟨⟨498, 0, 0⟩, 0, ⟨1, 0, 0⟩, 0⟩).state.velocity =
      Vec3.scale 0.5 (boundaryPhase (preBoundary ⟨false, false, false, false, false⟩
        ⟨⟨498, 0, 0⟩, 0, ⟨1, 0, 0⟩, 0⟩)).state.velocity ∧
    (animateStep ⟨false, false, false, false, false⟩
        ⟨⟨498, 0, 0⟩, 0, ⟨1, 0, 0⟩, 0⟩).state.velocity.length =
      0.5 * (boundaryPhase (preBoundary ⟨false, false, false, false, false⟩
        ⟨⟨498, 0, 0⟩, 0, ⟨1, 0, 0⟩, 0⟩)).state.velocity.length ∧
    (animateStep ⟨false, false, false, false, false⟩
        ⟨⟨498, 0, 0⟩, 0, ⟨1, 0, 0⟩, 0⟩).collisionEvent = true := by
  have hbv : (boundaryPhase (preBoundary ⟨false, false, false, false, false⟩
      ⟨⟨498, 0, 0⟩, 0, ⟨1, 0, 0⟩, 0⟩)).state.velocity = ⟨-0.475, 0, 0⟩ := by
    norm_num [boundaryPhase_eq, checkAxis, preBoundary, tractionPhase, rotatePhase,
      accelPhase, Vec3.add, Vec3.scale, BOUNDARY, carRadius, traction, collisionRebound]
  refine claim_C2_collision_damping ⟨false, false, false, false, false⟩
    ⟨⟨498, 0, 0⟩, 0, ⟨1, 0, 0⟩, 0⟩ ?_ ?_
  · norm_num [boundaryPhase_eq, checkAxis, preBoundary, tractionPhase, rotatePhase,
      accelPhase, Vec3.add, Vec3.scale, BOUNDARY, carRadius, traction]
  · rw [hbv, Vec3.lt_length_iff _ _ (by norm_num)]
    norm_num [Vec3.lengthSq]

/-- Counterexample to C3 as stated: a no-input tick from `(498, 0, 0)`
with velocity `(1, 0, 0)` drives the tentative X past
`maxX - carRadius`, yet the end-of-tick velocity.x is `-0.2375`, not
`-collisionRebound * 0.95 = -0.475`: the post-impact halving of the
collision-event branch changes it again. -/
theorem claim_C3_counterexample :
    BOUNDARY.maxX - carRadius <
      ((preBoundary ⟨false, false, false, false, false⟩
          ⟨⟨498, 0, 0⟩, 0, ⟨1, 0, 0⟩, 0⟩).position.add
        (preBoundary ⟨false, false, false, false, false⟩
          ⟨⟨498, 0, 0⟩, 0, ⟨1, 0, 0⟩, 0⟩).velocity).x ∧
    (animateStep ⟨false, false, false, false, false⟩
        ⟨⟨498, 0, 0⟩, 0, ⟨1, 0, 0⟩, 0⟩).state.velocity.x ≠
      -(preBoundary ⟨false, false, false, false, false⟩
          ⟨⟨498, 0, 0⟩, 0, ⟨1, 0, 0⟩, 0⟩).velocity.x * collisionRebound := by
  have hbv : (boundaryPhase (preBoundary ⟨false, false, false, false, false⟩
      ⟨⟨498, 0, 0⟩, 0, ⟨1, 0, 0⟩, 0⟩)).state.velocity = ⟨-0.475, 0, 0⟩ := by
    norm_num [boundaryPhase_eq, checkAxis, preBoundary, tractionPhase, rotatePhase,
      accelPhase, Vec3.add, Vec3.scale, BOUNDARY, carRadius, traction, collisionRebound]
  have hcol : (boundaryPhase (preBoundary ⟨false, false, false, false, false⟩
      ⟨⟨498, 0, 0⟩, 0, ⟨1, 0, 0⟩, 0⟩)).collision = true := by
    norm_num [boundaryPhase_eq, checkAxis, preBoundary, tractionPhase, rotatePhase,
      accelPhase, Vec3.add, Vec3.scale, BOUNDARY, carRadius, traction, collisionRebound]
  have hv : 0.05 < (boundaryPhase (preBoundary ⟨false, false, false, false, false⟩
      ⟨⟨498, 0, 0⟩, 0, ⟨1, 0, 0⟩, 0⟩)).state.velocity.length := by
    rw [hbv, Vec3.lt_length_iff _ _ (by norm_num)]
    norm_num [Vec3.lengthSq]
  have hpost := postPhase_collision_fast _ hcol hv
  constructor
  · norm_num [preBoundary, tractionPhase, rotatePhase, accelPhase,
      Vec3.add, Vec3.scale, BOUNDARY, carRadius, traction]
  · rw [animateStep_state, smokePhase_velocity, hpost]
    have hpv : (preBoundary ⟨false, false, false, false, false⟩
        ⟨⟨498, 0, 0⟩, 0, ⟨1, 0, 0⟩, 0⟩).velocity = ⟨0.95, 0, 0⟩ := by
      norm_num [preBoundary, tractionPhase, rotatePhase, accelPhase,
        Vec3.scale, traction]
    show (Vec3.scale 0.5 (boundaryPhase (preBoundary _ _)).state.velocity).x ≠ _
    rw [hbv, hpv]
    norm_num [Vec3.scale, collisionRebound]

/-- Claim C3 as amended: when the tentative X exceeds `maxX - carRadius`
the position X ends the tick at exactly `maxX - carRadius`, and
velocity.x equals `-collisionRebound` times the velocity.x at the check
immediately after the boundary response; the end-of-tick velocity.x is
that value when the rebound-scaled speed is at most `0.05`, and half of
it when the rebound-scaled speed exceeds `0.05` (the post-impact
damping). -/
theorem claim_C3_amended_clamp (m : Movement) (s : CarState)
    (hx : BOUNDARY.maxX - carRadius <
      ((preBoundary m s).position.add (preBoundary m s).velocity).x) :
    (animateStep m s).state.position.x = BOUNDARY.maxX - carRadius ∧
    (boundaryPhase (preBoundary m s)).state.velocity.x =
      -(preBoundary m s).velocity.x * collisionRebound ∧
    (¬ 0.05 < (boundaryPhase (preBoundary m s)).state.velocity.length →
      (animateStep m s).state.velocity.x =
        -(preBoundary m s).velocity.x * collisionRebound) ∧
    (0.05 < (boundaryPhase (preBoundary m s)).state.velocity.length →
      (animateStep m s).state.velocity.x =
        0.5 * (-(preBoundary m s).velocity.x * collisionRebound)) := by
  have hnot : ¬ ((preBoundary m s).position.add (preBoundary m s).velocity).x <
      BOUNDARY.minX + carRadius := by
    have hw : BOUNDARY.minX + carRadius ≤ BOUNDARY.maxX - carRadius := by
      norm_num [BOUNDARY, carRadius]
    exact not_lt.mpr (le_trans hw (le_of_lt hx))
  have hXeq : checkAxis ((preBoundary m s).position.add (preBoundary m s).velocity).x
      (preBoundary m s).velocity.x (preBoundary m s).position.x
      (BOUNDARY.minX + carRadius) (BOUNDARY.maxX - carRadius)
      = (-(preBoundary m s).velocity.x * collisionRebound,
         BOUNDARY.maxX - carRadius, true) := by
    unfold checkAxis
    rw [if_neg hnot, if_pos hx]
  have hcol : (boundaryPhase (preBoundary m s)).collision = true := by
    rw [boundaryPhase_eq, hXeq]
    simp
  have hbvx : (boundaryPhase (preBoundary m s)).state.velocity.x =
      -(preBoundary m s).velocity.x * collisionRebound := by
    rw [boundaryPhase_eq, hXeq]
  refine ⟨?_, hbvx, ?_, ?_⟩
  · rw [animateStep_state, smokePhase_position, postPhase_position_of_collision _ hcol,
      boundaryPhase_eq, hXeq]
  · intro hv
    rw [animateStep_state, smokePhase_velocity, postPhase_collision_slow _ hcol hv, hbvx]
  · intro hv
    rw [animateStep_state, smokePhase_velocity, postPhase_collision_fast _ hcol hv]
    show (Vec3.scale 0.5 (boundaryPhase (preBoundary m s)).state.velocity).x = _
    rw [Vec3.scale, hbvx]

/-- Witness for the amended C3 at the counterexample input: the clamp,
the rebound scaling at the check, and the conditional halving. -/
theorem claim_C3_amended_clamp_witness :
    (animateStep ⟨false, false, false, false, false⟩
        ⟨⟨498, 0, 0⟩, 0, ⟨1, 0, 0⟩, 0⟩).state.position.x = BOUNDARY.maxX - carRadius ∧
    (boundaryPhase (preBoundary ⟨false, false, false, false, false⟩
        ⟨⟨498, 0, 0⟩, 0, ⟨1, 0, 0⟩, 0⟩)).state.velocity.x =
      -(preBoundary ⟨false, false, false, false, false⟩
          ⟨⟨498, 0, 0⟩, 0, ⟨1, 0, 0⟩, 0⟩).velocity.x * collisionRebound ∧
    (¬ 0.05 < (boundaryPhase (preBoundary ⟨false, false, false, false, false⟩
        ⟨⟨498, 0, 0⟩, 0, ⟨1, 0, 0⟩, 0⟩)).state.velocity.length →
      (animateStep ⟨false, false, false, false, false⟩
          ⟨⟨498, 0, 0⟩, 0, ⟨1, 0, 0⟩, 0⟩).state.velocity.x =
        -(preBoundary ⟨false, false, false, false, false⟩
            ⟨⟨498, 0, 0⟩, 0, ⟨1, 0, 0⟩, 0⟩).velocity.x * collisionRebound) ∧
    (0.05 < (boundaryPhase (preBoundary ⟨false, false, false, false, false⟩
        ⟨⟨498, 0, 0⟩, 0, ⟨1, 0, 0⟩, 0⟩)).state.velocity.length →
      (animateStep ⟨false, false, false, false, false⟩
          ⟨⟨498, 0, 0⟩, 0, ⟨1, 0, 0⟩, 0⟩).state.velocity.x =
        0.5 * (-(preBoundary ⟨false, false, false, false, false⟩
            ⟨⟨498, 0, 0⟩, 0, ⟨1, 0, 0⟩, 0⟩).velocity.x * collisionRebound)) :=
  claim_C3_amended_clamp ⟨false, false, false, false, false⟩
    ⟨⟨498, 0, 0⟩, 0, ⟨1, 0, 0⟩, 0⟩
    (by norm_num [preBoundary, tractionPhase, rotatePhase, accelPhase,
      Vec3.add, Vec3.scale, BOUNDARY, carRadius, traction])

theorem direction_y (r : ℝ) : (direction r).y = 0 := rfl

theorem Vec3.normalize_y_zero (v : Vec3) (h : v.y = 0) : v.normalize.y = 0 := by
  unfold Vec3.normalize Vec3.scale
  simp [h]

theorem Vec3.addScaledVector_y (a b : Vec3) (c : ℝ) :
    (a.addScaledVector b c).y = a.y + c * b.y := rfl

/-- The acceleration phase never creates a vertical velocity component:
the forward direction and every blended direction have `y = 0`. -/
theorem accelPhase_velocity_y (m : Movement) (s : CarState) (h : s.velocity.y = 0) :
    (accelPhase m s).velocity.y = 0 := by
  have hdir : (direction s.rotationY).y = 0 := rfl
  have hcur : s.velocity.normalize.y = 0 := Vec3.normalize_y_zero _ h
  have hblend :
      (((Vec3.zero.addScaledVector s.velocity.normalize driftFactor).addScaledVector
        (direction s.rotationY) (1 - driftFactor)).normalize).y = 0 := by
    apply Vec3.normalize_y_zero
    rw [Vec3.addScaledVector_y, Vec3.addScaledVector_y, hcur, hdir]
    simp [Vec3.zero]
  by_cases hf : m.forward = true <;> by_cases hb : m.backward = true <;>
    by_cases hd : m.drift = true <;>
    simp only [accelPhase, hf, hb, hd, if_true, if_false, Bool.false_eq_true,
      Vec3.addScaledVector_y, hdir, hblend, hcur, h, mul_zero, add_zero, zero_add,
      ite_true, ite_false]

/-- One tick keeps a grounded car grounded. -/
theorem step_preserves_ground (m : Movement) (s : CarState)
    (hv : s.velocity.y = 0) (hp : s.position.y = 0) :
    (animateStep m s).state.velocity.y = 0 ∧
    (animateStep m s).state.position.y = 0 := by
  have h1 : (preBoundary m s).velocity.y = 0 := by
    unfold preBoundary tractionPhase
    have := accelPhase_velocity_y m s hv
    simp [Vec3.scale, rotatePhase_velocity, this]
  have h2 : (preBoundary m s).position.y = 0 := by rw [preBoundary_position]; exact hp
  have h3 : (boundaryPhase (preBoundary m s)).state.velocity.y = 0 := by
    rw [boundaryPhase_eq]; exact h1
  have h4 : (boundaryPhase (preBoundary m s)).state.position.y = 0 := by
    rw [boundaryPhase_eq]; exact h2
  rw [animateStep_state]
  by_cases hc : (boundaryPhase (preBoundary m s)).collision = false
  · rw [postPhase_no_collision _ hc]
    constructor
    · rw [smokePhase_velocity]; exact h3
    · rw [smokePhase_position]
      show (boundaryPhase (preBoundary m s)).state.position.y +
        (boundaryPhase (preBoundary m s)).state.velocity.y = 0
      rw [h3, h4]; norm_num
  · have hc' : (boundaryPhase (preBoundary m s)).collision = true := by simpa using hc
    by_cases hfast : 0.05 < (boundaryPhase (preBoundary m s)).state.velocity.length
    · rw [postPhase_collision_fast _ hc' hfast]
      constructor
      · rw [smokePhase_velocity]
        show 0.5 * (boundaryPhase (preBoundary m s)).state.velocity.y = 0
        rw [h3]; norm_num
      · rw [smokePhase_position]; exact h4
    · rw [postPhase_collision_slow _ hc' hfast]
      exact ⟨by rw [smokePhase_velocity]; exact h3, by rw [smokePhase_position]; exact h4⟩

/-- Claim C10: starting from the initial state (origin, zero velocity,
yaw-only orientation), every sequence of ticks keeps the car on the
ground plane: the Y components of velocity and position stay exactly 0
for every sequence of inputs, drift states and boundary collisions. -/
theorem claim_C10_ground_plane : ∀ (inputs : List Movement),
    (runTicks inputs initialCarState).velocity.y = 0 ∧
    (runTicks inputs initialCarState).position.y = 0 := by
  have key : ∀ (inputs : List Movement) (s : CarState),
      s.velocity.y = 0 → s.position.y = 0 →
      (runTicks inputs s).velocity.y = 0 ∧ (runTicks inputs s).position.y = 0 := by
    intro inputs
    induction inputs with
    | nil => exact fun s hv hp => ⟨hv, hp⟩
    | cons m rest ih =>
      intro s hv hp
      have h := step_preserves_ground m s hv hp
      exact ih _ h.1 h.2
  exact fun inputs => key inputs initialCarState rfl rfl

/-- Witness for C10 applied to the empty input sequence. -/
theorem claim_C10_ground_plane_witness :
    (runTicks [] initialCarState).velocity.y = 0 ∧
    (runTicks [] initialCarState).position.y = 0 :=
  claim_C10_ground_plane []

theorem Vec3.ext3 (a b : Vec3) (hx : a.x = b.x) (hy : a.y = b.y) (hz : a.z = b.z) :
    a = b := by
  cases a; cases b; simp_all

theorem Vec3.normalize_zero : Vec3.normalize ⟨0, 0, 0⟩ = (⟨0, 0, 0⟩ : Vec3) := by
  unfold Vec3.normalize
  apply Vec3.ext3 <;> simp [Vec3.scale]

theorem direction_length (r : ℝ) : (direction r).length = 1 := by
  unfold direction Vec3.length Vec3.lengthSq
  have h : (-Real.sin r) ^ 2 + (0 : ℝ) ^ 2 + (-Real.cos r) ^ 2 = 1 := by
    have hs := Real.sin_sq_add_cos_sq r
    ring_nf
    ring_nf at hs
    linarith
  rw [h, Real.sqrt_one]

/-- Normalizing a positive multiple of a unit vector returns the unit
vector. -/
theorem Vec3.normalize_scale_of_unit (c : ℝ) (hc : 0 < c) (v : Vec3)
    (hv : v.length = 1) : (Vec3.scale c v).normalize = v := by
  unfold Vec3.normalize
  have hl : (Vec3.scale c v).length = c := by
    rw [Vec3.length_scale, hv, abs_of_pos hc, mul_one]
  rw [hl, if_neg (ne_of_gt hc)]
  apply Vec3.ext3 <;> (simp [Vec3.scale]; field_simp)

/-- Counterexample to the C5 sub-claim that normalization is only ever
applied to non-zero vectors: on the very first forward-accelerating tick
while drifting (a reachable state: the initial state with `w` and space
held), `velocity.clone().normalize()` receives the zero vector, so the
step under the spec's unguarded reading of normalization is undefined. -/
theorem claim_C5_counterexample :
    accelPhaseStrict ⟨true, false, false, false, true⟩ initialCarState = none := by
  have hlen : (⟨0, 0, 0⟩ : Vec3).length = 0 := by
    simp [Vec3.length, Vec3.lengthSq]
  unfold accelPhaseStrict
  simp [initialCarState, Vec3.normalizeOpt, hlen]

/-- Core of the amended C5: from a zero-velocity state the guarded
(three.js) normalization turns the drift blend into the plain forward
direction, so the forward-drift acceleration is `carSpeed` along
`direction`. -/
theorem accel_zero_velocity (m : Movement) (s : CarState)
    (hf : m.forward = true) (hd : m.drift = true) (hb : m.backward = false)
    (hv : s.velocity = Vec3.zero) :
    (accelPhase m s).velocity = Vec3.scale carSpeed (direction s.rotationY) := by
  have hblend : ((Vec3.zero.addScaledVector (Vec3.normalize Vec3.zero)
      driftFactor).addScaledVector (direction s.rotationY) (1 - driftFactor))
      = Vec3.scale (1 / 5) (direction s.rotationY) := by
    apply Vec3.ext3 <;>
      simp [Vec3.addScaledVector, Vec3.add, Vec3.scale, Vec3.zero,
        Vec3.normalize_zero, driftFactor] <;> ring_nf <;> exact Or.inl trivial
  have hnorm : (Vec3.scale (1 / 5) (direction s.rotationY)).normalize
      = direction s.rotationY :=
    Vec3.normalize_scale_of_unit (1 / 5) (by norm_num) _ (direction_length s.rotationY)
  unfold accelPhase
  simp only [hf, hd, hb, if_true, ite_true, ite_false, Bool.false_eq_true, if_false, hv]
  rw [hblend, hnorm]
  apply Vec3.ext3 <;> simp [Vec3.addScaledVector, Vec3.add, Vec3.scale, Vec3.zero]

/-- Claim C5 as amended: the per-tick arithmetic is total even though
normalization is applied to the zero velocity vector on a zero-velocity
forward+drift tick, because three.js `normalize` divides by
`length || 1` and so maps the zero vector to itself; such a tick (at the
origin) produces velocity `driftDecay * carSpeed` along the forward
direction and no collision, with no undefined value. -/
theorem claim_C5_amended_total (m : Movement) (s : CarState)
    (hf : m.forward = true) (hd : m.drift = true) (hb : m.backward = false)
    (hv : s.velocity = Vec3.zero) (hp : s.position = Vec3.zero) :
    (animateStep m s).state.velocity =
      Vec3.scale (driftDecay * carSpeed) (direction s.rotationY) ∧
    (animateStep m s).collision = false := by
  have haccel := accel_zero_velocity m s hf hd hb hv
  have hpre : (preBoundary m s).velocity =
      Vec3.scale (driftDecay * carSpeed) (direction s.rotationY) := by
    have h1 : (preBoundary m s).velocity =
        Vec3.scale driftDecay (Vec3.scale carSpeed (direction s.rotationY)) := by
      unfold preBoundary tractionPhase
      rw [rotatePhase_velocity, haccel]
      simp [hd]
    rw [h1]
    apply Vec3.ext3 <;> simp [Vec3.scale] <;> ring
  have hnext : (preBoundary m s).position.add (preBoundary m s).velocity =
      Vec3.scale (driftDecay * carSpeed) (direction s.rotationY) := by
    rw [preBoundary_position, hp, hpre]
    apply Vec3.ext3 <;> simp [Vec3.add, Vec3.scale, Vec3.zero]
  have hsin1 := Real.neg_one_le_sin s.rotationY
  have hsin2 := Real.sin_le_one s.rotationY
  have hcos1 := Real.neg_one_le_cos s.rotationY
  have hcos2 := Real.cos_le_one s.rotationY
  have hx1 : ¬ ((preBoundary m s).position.add (preBoundary m s).velocity).x <
      BOUNDARY.minX + carRadius := by
    rw [hnext]
    simp only [Vec3.scale, direction]
    norm_num [BOUNDARY, carRadius, driftDecay, carSpeed]
    nlinarith
  have hx2 : ¬ BOUNDARY.maxX - carRadius <
      ((preBoundary m s).position.add (preBoundary m s).velocity).x := by
    rw [hnext]
    simp only [Vec3.scale, direction]
    norm_num [BOUNDARY, carRadius, driftDecay, carSpeed]
    nlinarith
  have hz1 : ¬ ((preBoundary m s).position.add (preBoundary m s).velocity).z <
      BOUNDARY.minZ + carRadius := by
    rw [hnext]
    simp only [Vec3.scale, direction]
    norm_num [BOUNDARY, carRadius, driftDecay, carSpeed]
    nlinarith
  have hz2 : ¬ BOUNDARY.maxZ - carRadius <
      ((preBoundary m s).position.add (preBoundary m s).velocity).z := by
    rw [hnext]
    simp only [Vec3.scale, direction]
    norm_num [BOUNDARY, carRadius, driftDecay, carSpeed]
    nlinarith
  have hXeq : checkAxis ((preBoundary m s).position.add (preBoundary m s).velocity).x
      (preBoundary m s).velocity.x (preBoundary m s).position.x
      (BOUNDARY.minX + carRadius) (BOUNDARY.maxX - carRadius)
      = ((preBoundary m s).velocity.x, (preBoundary m s).position.x, false) := by
    unfold checkAxis
    rw [if_neg hx1, if_neg hx2]
  have hZeq : checkAxis ((preBoundary m s).position.add (preBoundary m s).velocity).z
      (preBoundary m s).velocity.z (preBoundary m s).position.z
      (BOUNDARY.minZ + carRadius) (BOUNDARY.maxZ - carRadius)
      = ((preBoundary m s).velocity.z, (preBoundary m s).position.z, false) := by
    unfold checkAxis
    rw [if_neg hz1, if_neg hz2]
  have hcol : (boundaryPhase (preBoundary m s)).collision = false := by
    rw [boundaryPhase_eq, hXeq, hZeq]
    rfl
  constructor
  · rw [animateStep_state, smokePhase_velocity, postPhase_no_collision _ hcol]
    show (boundaryPhase (preBoundary m s)).state.velocity = _
    rw [boundaryPhase_eq, hXeq, hZeq]
    exact hpre
  · rw [animateStep_collision, postPhase_collision_flag]
    exact hcol

/-- Witness for the amended C5 at the initial state with `w` and space
held (the exact situation of the counterexample). -/
theorem claim_C5_amended_total_witness :
    (animateStep ⟨true, false, false, false, true⟩ initialCarState).state.velocity =
      Vec3.scale (driftDecay * carSpeed) (direction initialCarState.rotationY) ∧
    (animateStep ⟨true, false, false, false, true⟩ initialCarState).collision = false :=
  claim_C5_amended_total ⟨true, false, false, false, true⟩ initialCarState
    rfl rfl rfl rfl rfl

theorem Vec3.add_x (a b : Vec3) : (a.add b).x = a.x + b.x := rfl

theorem Vec3.add_z (a b : Vec3) : (a.add b).z = a.z + b.z := rfl

theorem Vec3.scale_x (c : ℝ) (v : Vec3) : (Vec3.scale c v).x = c * v.x := rfl

theorem Vec3.scale_y (c : ℝ) (v : Vec3) : (Vec3.scale c v).y = c * v.y := rfl

theorem Vec3.scale_z (c : ℝ) (v : Vec3) : (Vec3.scale c v).z = c * v.z := rfl

theorem Vec3.addScaledVector_x (a b : Vec3) (c : ℝ) :
    (a.addScaledVector b c).x = a.x + c * b.x := rfl

theorem Vec3.addScaledVector_z (a b : Vec3) (c : ℝ) :
    (a.addScaledVector b c).z = a.z + c * b.z := rfl

/-- Full evaluation of a forward+drift tick at yaw `0` from the origin
with velocity `(c, 0, 0)`, `0 < c ≤ 1`: the drift blend normalizes to
`normalize (0.8, 0, -0.2)` and no wall is hit, so the final velocity is
`driftDecay * ((c,0,0) + carSpeed * normalize (0.8, 0, -0.2))`. -/
theorem c7_step_velocity (c : ℝ) (hc0 : 0 < c) (hc1 : c ≤ 1) :
    (animateStep ⟨true, false, false, false, true⟩
        ⟨⟨0, 0, 0⟩, 0, ⟨c, 0, 0⟩, 0⟩).state.velocity =
      Vec3.scale driftDecay ((⟨c, 0, 0⟩ : Vec3).addScaledVector
        (Vec3.normalize ⟨0.8, 0, -0.2⟩) carSpeed) := by
  have hlenc : (⟨c, 0, 0⟩ : Vec3).length = c := by
    unfold Vec3.length Vec3.lengthSq
    rw [show c ^ 2 + (0 : ℝ) ^ 2 + (0 : ℝ) ^ 2 = c ^ 2 by ring, Real.sqrt_sq hc0.le]
  have hnormc : Vec3.normalize ⟨c, 0, 0⟩ = ⟨1, 0, 0⟩ := by
    unfold Vec3.normalize
    rw [hlenc, if_neg (ne_of_gt hc0)]
    apply Vec3.ext3 <;> simp [Vec3.scale] <;> field_simp
  have hdir0 : direction 0 = ⟨0, 0, -1⟩ := by
    unfold direction
    apply Vec3.ext3 <;> simp
  have hblend : ((Vec3.zero.addScaledVector (Vec3.normalize ⟨c, 0, 0⟩)
      driftFactor).addScaledVector (direction 0) (1 - driftFactor)) = ⟨0.8, 0, -0.2⟩ := by
    rw [hnormc, hdir0]
    apply Vec3.ext3 <;>
      norm_num [Vec3.addScaledVector, Vec3.add, Vec3.scale, Vec3.zero, driftFactor]
  have haccel : (accelPhase ⟨true, false, false, false, true⟩
      ⟨⟨0, 0, 0⟩, 0, ⟨c, 0, 0⟩, 0⟩).velocity =
      (⟨c, 0, 0⟩ : Vec3).addScaledVector (Vec3.normalize ⟨0.8, 0, -0.2⟩) carSpeed := by
    show (⟨c, 0, 0⟩ : Vec3).addScaledVector (Vec3.normalize
      ((Vec3.zero.addScaledVector (Vec3.normalize ⟨c, 0, 0⟩) driftFactor).addScaledVector
        (direction 0) (1 - driftFactor))) carSpeed = _
    rw [hblend]
  have hpre : (preBoundary ⟨true, false, false, false, true⟩
      ⟨⟨0, 0, 0⟩, 0, ⟨c, 0, 0⟩, 0⟩).velocity =
      Vec3.scale driftDecay ((⟨c, 0, 0⟩ : Vec3).addScaledVector
        (Vec3.normalize ⟨0.8, 0, -0.2⟩) carSpeed) := by
    show Vec3.scale driftDecay (accelPhase ⟨true, false, false, false, true⟩
      ⟨⟨0, 0, 0⟩, 0, ⟨c, 0, 0⟩, 0⟩).velocity = _
    rw [haccel]
  have hs68 : (0.8 : ℝ) ≤ Real.sqrt 0.68 := by
    rw [show (0.8 : ℝ) = Real.sqrt 0.64 by
      rw [show (0.64 : ℝ) = 0.8 ^ 2 by norm_num,
        Real.sqrt_sq (by norm_num : (0 : ℝ) ≤ 0.8)]]
    exact Real.sqrt_le_sqrt (by norm_num)
  have hspos : 0 < Real.sqrt 0.68 := lt_of_lt_of_le (by norm_num) hs68
  have hlw : (⟨0.8, 0, -0.2⟩ : Vec3).length = Real.sqrt 0.68 := by
    unfold Vec3.length Vec3.lengthSq
    norm_num
  have hnw : Vec3.normalize ⟨0.8, 0, -0.2⟩ =
      Vec3.scale (1 / Real.sqrt 0.68) ⟨0.8, 0, -0.2⟩ := by
    unfold Vec3.normalize
    rw [hlw, if_neg (ne_of_gt hspos)]
  have hinv : 1 / Real.sqrt 0.68 ≤ 1.25 := by
    rw [div_le_iff hspos]
    nlinarith
  have hinvpos : 0 < 1 / Real.sqrt 0.68 := by positivity
  have hux : (preBoundary ⟨true, false, false, false, true⟩
      ⟨⟨0, 0, 0⟩, 0, ⟨c, 0, 0⟩, 0⟩).velocity.x =
      driftDecay * (c + carSpeed * (1 / Real.sqrt 0.68) * 0.8) := by
    rw [hpre, hnw]
    simp only [Vec3.scale_x, Vec3.addScaledVector_x]
    ring
  have huz : (preBoundary ⟨true, false, false, false, true⟩
      ⟨⟨0, 0, 0⟩, 0, ⟨c, 0, 0⟩, 0⟩).velocity.z =
      driftDecay * (carSpeed * (1 / Real.sqrt 0.68) * (-0.2)) := by
    rw [hpre, hnw]
    simp only [Vec3.scale_z, Vec3.addScaledVector_z]
    ring
  have hnextx : ((preBoundary ⟨true, false, false, false, true⟩
      ⟨⟨0, 0, 0⟩, 0, ⟨c, 0, 0⟩, 0⟩).position.add (preBoundary ⟨true, false, false, false, true⟩
      ⟨⟨0, 0, 0⟩, 0, ⟨c, 0, 0⟩, 0⟩).velocity).x =
      driftDecay * (c + carSpeed * (1 / Real.sqrt 0.68) * 0.8) := by
    rw [Vec3.add_x, hux, preBoundary_position]
    norm_num
  have hnextz : ((preBoundary ⟨true, false, false, false, true⟩
      ⟨⟨0, 0, 0⟩, 0, ⟨c, 0, 0⟩, 0⟩).position.add (preBoundary ⟨true, false, false, false, true⟩
      ⟨⟨0, 0, 0⟩, 0, ⟨c, 0, 0⟩, 0⟩).velocity).z =
      driftDecay * (carSpeed * (1 / Real.sqrt 0.68) * (-0.2)) := by
    rw [Vec3.add_z, huz, preBoundary_position]
    norm_num
  have hb1 : BOUNDARY.minX + carRadius ≤
      driftDecay * (c + carSpeed * (1 / Real.sqrt 0.68) * 0.8) := by
    rw [show BOUNDARY.minX + carRadius = (-498.5 : ℝ) by norm_num [BOUNDARY, carRadius]]
    show (-498.5 : ℝ) ≤ 0.98 * (c + 0.03 * (1 / Real.sqrt 0.68) * 0.8)
    linarith [hc0, hc1, hinvpos, hinv]
  have hb2 : driftDecay * (c + carSpeed * (1 / Real.sqrt 0.68) * 0.8) ≤
      BOUNDARY.maxX - carRadius := by
    rw [show BOUNDARY.maxX - carRadius = (498.5 : ℝ) by norm_num [BOUNDARY, carRadius]]
    show (0.98 : ℝ) * (c + 0.03 * (1 / Real.sqrt 0.68) * 0.8) ≤ 498.5
    linarith [hc0, hc1, hinvpos, hinv]
  have hb3 : BOUNDARY.minZ + carRadius ≤
      driftDecay * (carSpeed * (1 / Real.sqrt 0.68) * (-0.2)) := by
    rw [show BOUNDARY.minZ + carRadius = (-498.5 : ℝ) by norm_num [BOUNDARY, carRadius]]
    show (-498.5 : ℝ) ≤ 0.98 * (0.03 * (1 / Real.sqrt 0.68) * (-0.2))
    linarith [hc0, hc1, hinvpos, hinv]
  have hb4 : driftDecay * (carSpeed * (1 / Real.sqrt 0.68) * (-0.2)) ≤
      BOUNDARY.maxZ - carRadius := by
    rw [show BOUNDARY.maxZ - carRadius = (498.5 : ℝ) by norm_num [BOUNDARY, carRadius]]
    show (0.98 : ℝ) * (0.03 * (1 / Real.sqrt 0.68) * (-0.2)) ≤ 498.5
    linarith [hc0, hc1, hinvpos, hinv]
  have hx1 : ¬ ((preBoundary ⟨true, false, false, false, true⟩
      ⟨⟨0, 0, 0⟩, 0, ⟨c, 0, 0⟩, 0⟩).position.add (preBoundary ⟨true, false, false, false, true⟩
      ⟨⟨0, 0, 0⟩, 0, ⟨c, 0, 0⟩, 0⟩).velocity).x < BOUNDARY.minX + carRadius := by
    rw [hnextx]
    exact not_lt.mpr hb1
  have hx2 : ¬ BOUNDARY.maxX - carRadius < ((preBoundary ⟨true, false, false, false, true⟩
      ⟨⟨0, 0, 0⟩, 0, ⟨c, 0, 0⟩, 0⟩).position.add (preBoundary ⟨true, false, false, false, true⟩
      ⟨⟨0, 0, 0⟩, 0, ⟨c, 0, 0⟩, 0⟩).velocity).x := by
    rw [hnextx]
    exact not_lt.mpr hb2
  have hz1 : ¬ ((preBoundary ⟨true, false, false, false, true⟩
      ⟨⟨0, 0, 0⟩, 0, ⟨c, 0, 0⟩, 0⟩).position.add (preBoundary ⟨true, false, false, false, true⟩
      ⟨⟨0, 0, 0⟩, 0, ⟨c, 0, 0⟩, 0⟩).velocity).z < BOUNDARY.minZ + carRadius := by
    rw [hnextz]
    exact not_lt.mpr hb3
  have hz2 : ¬ BOUNDARY.maxZ - carRadius < ((preBoundary ⟨true, false, false, false, true⟩
      ⟨⟨0, 0, 0⟩, 0, ⟨c, 0, 0⟩, 0⟩).position.add (preBoundary ⟨true, false, false, false, true⟩
      ⟨⟨0, 0, 0⟩, 0, ⟨c, 0, 0⟩, 0⟩).velocity).z := by
    rw [hnextz]
    exact not_lt.mpr hb4
  have hXeq : checkAxis ((preBoundary ⟨true, false, false, false, true⟩
      ⟨⟨0, 0, 0⟩, 0, ⟨c, 0, 0⟩, 0⟩).position.add (preBoundary ⟨true, false, false, false, true⟩
      ⟨⟨0, 0, 0⟩, 0, ⟨c, 0, 0⟩, 0⟩).velocity).x
      (preBoundary ⟨true, false, false, false, true⟩
        ⟨⟨0, 0, 0⟩, 0, ⟨c, 0, 0⟩, 0⟩).velocity.x
      (preBoundary ⟨true, false, false, false, true⟩
        ⟨⟨0, 0, 0⟩, 0, ⟨c, 0, 0⟩, 0⟩).position.x
      (BOUNDARY.minX + carRadius) (BOUNDARY.maxX - carRadius)
      = ((preBoundary ⟨true, false, false, false, true⟩
          ⟨⟨0, 0, 0⟩, 0, ⟨c, 0, 0⟩, 0⟩).velocity.x,
        (preBoundary ⟨true, false, false, false, true⟩
          ⟨⟨0, 0, 0⟩, 0, ⟨c, 0, 0⟩, 0⟩).position.x, false) := by
    unfold checkAxis
    rw [if_neg hx1, if_neg hx2]
  have hZeq : checkAxis ((preBoundary ⟨true, false, false, false, true⟩
      ⟨⟨0, 0, 0⟩, 0, ⟨c, 0, 0⟩, 0⟩).position.add (preBoundary ⟨true, false, false, false, true⟩
      ⟨⟨0, 0, 0⟩, 0, ⟨c, 0, 0⟩, 0⟩).velocity).z
      (preBoundary ⟨true, false, false, false, true⟩
        ⟨⟨0, 0, 0⟩, 0, ⟨c, 0, 0⟩, 0⟩).velocity.z
      (preBoundary ⟨true, false, false, false, true⟩
        ⟨⟨0, 0, 0⟩, 0, ⟨c, 0, 0⟩, 0⟩).position.z
      (BOUNDARY.minZ + carRadius) (BOUNDARY.maxZ - carRadius)
      = ((preBoundary ⟨true, false, false, false, true⟩
          ⟨⟨0, 0, 0⟩, 0, ⟨c, 0, 0⟩, 0⟩).velocity.z,
        (preBoundary ⟨true, false, false, false, true⟩
          ⟨⟨0, 0, 0⟩, 0, ⟨c, 0, 0⟩, 0⟩).position.z, false) := by
    unfold checkAxis
    rw [if_neg hz1, if_neg hz2]
  have hcol : (boundaryPhase (preBoundary ⟨true, false, false, false, true⟩
      ⟨⟨0, 0, 0⟩, 0, ⟨c, 0, 0⟩, 0⟩)).collision = false := by
    rw [boundaryPhase_eq, hXeq, hZeq]
    rfl
  rw [animateStep_state, smokePhase_velocity, postPhase_no_collision _ hcol]
  show (boundaryPhase (preBoundary ⟨true, false, false, false, true⟩
    ⟨⟨0, 0, 0⟩, 0, ⟨c, 0, 0⟩, 0⟩)).state.velocity = _
  rw [boundaryPhase_eq, hXeq, hZeq]
  exact hpre

/-- Counterexample to C7 as stated: with velocity `(1, 0, 0)` (direction
`(1,0,0)`), forward direction `(0,0,-1)` (yaw `0`) and forward+drift
held, the velocity direction after the tick is NOT the normalized blend
`normalize (0.8·(1,0,0) + 0.2·(0,0,-1))`: the old velocity still
dominates the sum, only the acceleration increment follows the blend. -/
theorem claim_C7_counterexample :
    direction 0 = (⟨0, 0, -1⟩ : Vec3) ∧
    Vec3.normalize ⟨1, 0, 0⟩ = (⟨1, 0, 0⟩ : Vec3) ∧
    Vec3.normalize ((animateStep ⟨true, false, false, false, true⟩
        ⟨⟨0, 0, 0⟩, 0, ⟨1, 0, 0⟩, 0⟩).state.velocity) ≠
      Vec3.normalize ⟨0.8, 0, -0.2⟩ := by
  have hu := c7_step_velocity 1 (by norm_num) (by norm_num)
  have hs68 : (0.8 : ℝ) ≤ Real.sqrt 0.68 := by
    rw [show (0.8 : ℝ) = Real.sqrt 0.64 by
      rw [show (0.64 : ℝ) = 0.8 ^ 2 by norm_num,
        Real.sqrt_sq (by norm_num : (0 : ℝ) ≤ 0.8)]]
    exact Real.sqrt_le_sqrt (by norm_num)
  have hspos : 0 < Real.sqrt 0.68 := lt_of_lt_of_le (by norm_num) hs68
  have hinvpos : 0 < 1 / Real.sqrt 0.68 := by positivity
  have hlw : (⟨0.8, 0, -0.2⟩ : Vec3).length = Real.sqrt 0.68 := by
    unfold Vec3.length Vec3.lengthSq
    norm_num
  have hnw : Vec3.normalize ⟨0.8, 0, -0.2⟩ =
      Vec3.scale (1 / Real.sqrt 0.68) ⟨0.8, 0, -0.2⟩ := by
    unfold Vec3.normalize
    rw [hlw, if_neg (ne_of_gt hspos)]
  have hone : Vec3.normalize ⟨1, 0, 0⟩ = (⟨1, 0, 0⟩ : Vec3) := by
    have h1 : (⟨1, 0, 0⟩ : Vec3).length = 1 := by
      unfold Vec3.length Vec3.lengthSq
      norm_num
    unfold Vec3.normalize
    rw [h1, if_neg one_ne_zero]
    apply Vec3.ext3 <;> simp [Vec3.scale]
  have hdir : direction 0 = (⟨0, 0, -1⟩ : Vec3) := by
    unfold direction
    apply Vec3.ext3 <;> simp
  refine ⟨hdir, hone, ?_⟩
  rw [hu, hnw]
  have hEx : (Vec3.scale driftDecay ((⟨1, 0, 0⟩ : Vec3).addScaledVector
      (Vec3.scale (1 / Real.sqrt 0.68) ⟨0.8, 0, -0.2⟩) carSpeed)).x =
      0.98 * (1 + 0.03 * (1 / Real.sqrt 0.68 * 0.8)) := rfl
  have hEz : (Vec3.scale driftDecay ((⟨1, 0, 0⟩ : Vec3).addScaledVector
      (Vec3.scale (1 / Real.sqrt 0.68) ⟨0.8, 0, -0.2⟩) carSpeed)).z =
      0.98 * (0 + 0.03 * (1 / Real.sqrt 0.68 * -0.2)) := rfl
  have hExpos : 0 < (Vec3.scale driftDecay ((⟨1, 0, 0⟩ : Vec3).addScaledVector
      (Vec3.scale (1 / Real.sqrt 0.68) ⟨0.8, 0, -0.2⟩) carSpeed)).x := by
    rw [hEx]
    linarith [hinvpos]
  have hLpos : 0 < (Vec3.scale driftDecay ((⟨1, 0, 0⟩ : Vec3).addScaledVector
      (Vec3.scale (1 / Real.sqrt 0.68) ⟨0.8, 0, -0.2⟩) carSpeed)).length := by
    unfold Vec3.length
    apply Real.sqrt_pos.mpr
    unfold Vec3.lengthSq
    nlinarith [hExpos, sq_nonneg (Vec3.scale driftDecay ((⟨1, 0, 0⟩ : Vec3).addScaledVector
      (Vec3.scale (1 / Real.sqrt 0.68) ⟨0.8, 0, -0.2⟩) carSpeed)).y,
      sq_nonneg (Vec3.scale driftDecay ((⟨1, 0, 0⟩ : Vec3).addScaledVector
      (Vec3.scale (1 / Real.sqrt 0.68) ⟨0.8, 0, -0.2⟩) carSpeed)).z]
  have hnE : Vec3.normalize (Vec3.scale driftDecay ((⟨1, 0, 0⟩ : Vec3).addScaledVector
      (Vec3.scale (1 / Real.sqrt 0.68) ⟨0.8, 0, -0.2⟩) carSpeed)) =
      Vec3.scale (1 / (Vec3.scale driftDecay ((⟨1, 0, 0⟩ : Vec3).addScaledVector
        (Vec3.scale (1 / Real.sqrt 0.68) ⟨0.8, 0, -0.2⟩) carSpeed)).length)
      (Vec3.scale driftDecay ((⟨1, 0, 0⟩ : Vec3).addScaledVector
        (Vec3.scale (1 / Real.sqrt 0.68) ⟨0.8, 0, -0.2⟩) carSpeed)) := by
    unfold Vec3.normalize
    rw [if_neg (ne_of_gt hLpos)]
  intro heq
  rw [hnE] at heq
  have hx := congrArg Vec3.x heq
  have hz := congrArg Vec3.z heq
  simp only [Vec3.scale_x, Vec3.scale_z, Vec3.addScaledVector_x, Vec3.addScaledVector_z,
    show ((⟨0.8, 0, -0.2⟩ : Vec3)).x = 0.8 from rfl,
    show ((⟨0.8, 0, -0.2⟩ : Vec3)).z = -0.2 from rfl,
    show ((⟨1, 0, 0⟩ : Vec3)).x = 1 from rfl,
    show ((⟨1, 0, 0⟩ : Vec3)).z = 0 from rfl,
    show driftDecay = 0.98 from rfl,
    show carSpeed = 0.03 from rfl] at hx hz hLpos
  field_simp [ne_of_gt hLpos, ne_of_gt hspos] at hx hz
  nlinarith [hx, hz, hspos, hLpos, mul_pos hspos hspos]

/-- Claim C7 as amended: in a forward+drift tick with velocity direction
`(1,0,0)` and forward direction `(0,0,-1)` (`driftFactor = 0.8`), the
blend computed by the tick is `0.8·(1,0,0) + 0.2·(0,0,-1) = (0.8,0,-0.2)`
and the acceleration is applied along its normalization: the end-of-tick
velocity is `driftDecay · (v + carSpeed · normalize (0.8,0,-0.2))` — the
normalized blend is the direction of the acceleration increment, not of
the whole post-tick velocity. -/
theorem claim_C7_amended_blend (c : ℝ) (hc0 : 0 < c) (hc1 : c ≤ 1) :
    ((Vec3.zero.addScaledVector (Vec3.normalize ⟨c, 0, 0⟩) driftFactor).addScaledVector
      (direction 0) (1 - driftFactor)) = (⟨0.8, 0, -0.2⟩ : Vec3) ∧
    (animateStep ⟨true, false, false, false, true⟩
        ⟨⟨0, 0, 0⟩, 0, ⟨c, 0, 0⟩, 0⟩).state.velocity =
      Vec3.scale driftDecay ((⟨c, 0, 0⟩ : Vec3).addScaledVector
        (Vec3.normalize ⟨0.8, 0, -0.2⟩) carSpeed) := by
  have hlenc : (⟨c, 0, 0⟩ : Vec3).length = c := by
    unfold Vec3.length Vec3.lengthSq
    rw [show c ^ 2 + (0 : ℝ) ^ 2 + (0 : ℝ) ^ 2 = c ^ 2 by ring, Real.sqrt_sq hc0.le]
  have hnormc : Vec3.normalize ⟨c, 0, 0⟩ = ⟨1, 0, 0⟩ := by
    unfold Vec3.normalize
    rw [hlenc, if_neg (ne_of_gt hc0)]
    apply Vec3.ext3 <;> simp [Vec3.scale] <;> field_simp
  have hdir0 : direction 0 = (⟨0, 0, -1⟩ : Vec3) := by
    unfold direction
    apply Vec3.ext3 <;> simp
  constructor
  · rw [hnormc, hdir0]
    apply Vec3.ext3 <;>
      norm_num [Vec3.addScaledVector, Vec3.add, Vec3.scale, Vec3.zero, driftFactor]
  · exact c7_step_velocity c hc0 hc1

/-- Witness for the amended C7 at velocity `(1, 0, 0)`. -/
theorem claim_C7_amended_blend_witness :
    ((Vec3.zero.addScaledVector (Vec3.normalize ⟨1, 0, 0⟩) driftFactor).addScaledVector
      (direction 0) (1 - driftFactor)) = (⟨0.8, 0, -0.2⟩ : Vec3) ∧
    (animateStep ⟨true, false, false, false, true⟩
        ⟨⟨0, 0, 0⟩, 0, ⟨1, 0, 0⟩, 0⟩).state.velocity =
      Vec3.scale driftDecay ((⟨1, 0, 0⟩ : Vec3).addScaledVector
        (Vec3.normalize ⟨0.8, 0, -0.2⟩) carSpeed) :=
  claim_C7_amended_blend 1 (by norm_num) (by norm_num)

/-- Witness for C9 at a concrete drag: car at the origin, angle `0`,
height `3`, no mouse motion. -/
theorem claim_C9_orbit_camera_witness :
    1 ≤ (mousemoveUpdate ⟨0, 3⟩ 0 0).cameraHeight ∧
    (mousemoveUpdate ⟨0, 3⟩ 0 0).cameraHeight ≤ 10 ∧
    (orbitCamera ⟨0, 0, 0⟩ (mousemoveUpdate ⟨0, 3⟩ 0 0)).1 =
      Vec3.add ⟨0, 0, 0⟩ ⟨cameraDistance * Real.sin (mousemoveUpdate ⟨0, 3⟩ 0 0).cameraAngle,
               (mousemoveUpdate ⟨0, 3⟩ 0 0).cameraHeight,
               cameraDistance * Real.cos (mousemoveUpdate ⟨0, 3⟩ 0 0).cameraAngle⟩ ∧
    (orbitCamera ⟨0, 0, 0⟩ (mousemoveUpdate ⟨0, 3⟩ 0 0)).2 = ⟨0, 0, 0⟩ :=
  claim_C9_orbit_camera ⟨0, 0, 0⟩ ⟨0, 3⟩ 0 0 rfl

end CarSim
